import Mathlib

/-!
Verification of the pactum core: the Interaction contract model
(src/models/interaction.js), the Mock control plane (src/mock.js) and the
named handler registry, over a shallow embedding of the JavaScript source.
JavaScript values are modelled by the inductive `JSValue`; machine behaviour
such as `typeof`, truthiness, property access (including the TypeError raised
when reading a property of `null`/`undefined`) and JSON round-tripping is
made explicit.
-/

namespace Pactum

/-- A JavaScript value, as used by the pactum core: primitives, structured
objects (association lists of fields), arrays, and opaque callable values
identified by a tag. -/
inductive JSValue where
  | undefined : JSValue
  | null : JSValue
  | bool (b : Bool) : JSValue
  | num (n : Int) : JSValue
  | str (s : String) : JSValue
  | obj (fields : List (String × JSValue)) : JSValue
  | arr (elems : List JSValue) : JSValue
  | func (tag : Nat) : JSValue
deriving Repr

/-- Tests whether a value is the JavaScript `null`. -/
def isNull : JSValue → Bool
  | .null => true
  | _ => false

/-- Tests whether a value is the JavaScript `undefined`. -/
def isUndefined : JSValue → Bool
  | .undefined => true
  | _ => false

/-- The JavaScript `typeof` operator; note `typeof null` is `"object"`. -/
def jsTypeof : JSValue → String
  | .undefined => "undefined"
  | .null => "object"
  | .bool _ => "boolean"
  | .num _ => "number"
  | .str _ => "string"
  | .obj _ => "object"
  | .arr _ => "object"
  | .func _ => "function"

/-- JavaScript truthiness of a value. -/
def truthy : JSValue → Bool
  | .undefined => false
  | .null => false
  | .bool b => b
  | .num n => n != 0
  | .str s => s ≠ ""
  | .obj _ => true
  | .arr _ => true
  | .func _ => true

/-- Field lookup in an object's field list; a missing field reads as
`undefined`, as in JavaScript. -/
def getField : List (String × JSValue) → String → JSValue
  | [], _ => .undefined
  | (k, v) :: rest, key => if k = key then v else getField rest key

/-- Property read on a non-null, non-undefined value: objects yield their
field, everything else (arrays and boxed primitives, for the properties the
pactum core reads) yields `undefined`. -/
def pureProp (v : JSValue) (key : String) : JSValue :=
  match v with
  | .obj fields => getField fields key
  | _ => .undefined

/-- Overwrite-or-append of a field in an object's field list, as JavaScript
property assignment behaves on plain objects. -/
def setField : List (String × JSValue) → String → JSValue → List (String × JSValue)
  | [], key, v => [(key, v)]
  | (k, w) :: rest, key, v =>
      if k = key then (k, v) :: rest else (k, w) :: setField rest key v

/-- Property write: only meaningful on structured objects; other values are
returned unchanged (primitives silently ignore writes in non-strict JS). -/
def setProp (v : JSValue) (key : String) (x : JSValue) : JSValue :=
  match v with
  | .obj fields => .obj (setField fields key x)
  | other => other

/-- String conversion as performed by JavaScript template literals. The
source text of functions is not modelled. -/
def jsToString : JSValue → String
  | .undefined => "undefined"
  | .null => "null"
  | .bool b => if b then "true" else "false"
  | .num n => toString n
  | .str s => s
  | .obj _ => "[object Object]"
  | .arr _ => ""
  | .func _ => "function"

/-- The error kinds raised by the pactum core: the error classes of
src/helpers/errors.js that the core uses, plus the JavaScript `TypeError`
that property access on `null`/`undefined` raises. -/
inductive JsError where
  | interactionError (msg : String)
  | configurationError (msg : String)
  | handlerError (msg : String)
  | typeError (msg : String)
deriving DecidableEq, Repr

/-- The `ALLOWED_REQUEST_METHODS` set of src/models/interaction.js. -/
def ALLOWED_REQUEST_METHODS : List String :=
  ["GET", "POST", "PUT", "DELETE", "PATCH", "HEAD"]

/-- The `ALLOWED_REQUEST_METHODS.has(v)` test: membership for strings,
false for every non-string value. -/
def methodAllowed (v : JSValue) : Bool :=
  match v with
  | .str s => s ∈ ALLOWED_REQUEST_METHODS
  | _ => false

/-- The `typeof v !== 'string' || !v` test used throughout
`validateInteraction`: true when `v` is not a non-empty string. -/
def notNonEmptyString (v : JSValue) : Bool :=
  jsTypeof v ≠ "string" || !(truthy v)

/-- The `Interaction.validateInteraction` method of src/models/interaction.js,
checks in source order. `typeof null` is `"object"`, so a `null` raw
interaction passes the first guard and the subsequent destructuring raises a
TypeError; the same happens when `withRequest`/`willRespondWith` is `null`
and its properties are read. -/
def validateInteraction (rawInteraction : JSValue) (mock : Bool) : Except JsError Unit :=
  if jsTypeof rawInteraction ≠ "object" then
    .error (.interactionError "Invalid interaction provided")
  else if isNull rawInteraction then
    .error (.typeError "Cannot destructure property of null")
  else
    let provider := pureProp rawInteraction "provider"
    let state := pureProp rawInteraction "state"
    let uponReceiving := pureProp rawInteraction "uponReceiving"
    let withRequest := pureProp rawInteraction "withRequest"
    let willRespondWith := pureProp rawInteraction "willRespondWith"
    if mock = false ∧ notNonEmptyString provider then
      .error (.interactionError ("Invalid provider name provided - " ++ jsToString provider))
    else if mock = false ∧ notNonEmptyString state then
      .error (.interactionError ("Invalid state provided - " ++ jsToString state))
    else if mock = false ∧ notNonEmptyString uponReceiving then
      .error (.interactionError ("Invalid upon receiving description provided - " ++ jsToString uponReceiving))
    else if jsTypeof withRequest ≠ "object" then
      .error (.interactionError ("Invalid interaction request provided - " ++ jsToString withRequest))
    else if isNull withRequest then
      .error (.typeError "Cannot read properties of null")
    else if notNonEmptyString (pureProp withRequest "method") then
      .error (.interactionError ("Invalid interaction request method provided - " ++ jsToString (pureProp withRequest "method")))
    else if !methodAllowed (pureProp withRequest "method") then
      .error (.interactionError ("Invalid interaction request method provided - " ++ jsToString (pureProp withRequest "method")))
    else if notNonEmptyString (pureProp withRequest "path") then
      .error (.interactionError ("Invalid interaction request path provided - " ++ jsToString (pureProp withRequest "path")))
    else if mock = false ∧ truthy (pureProp withRequest "ignoreQuery") then
      .error (.interactionError "Pact interaction won't support ignore query")
    else if mock = false ∧ truthy (pureProp withRequest "ignoreBody") then
      .error (.interactionError "Pact interaction won't support ignore body")
    else if jsTypeof willRespondWith ≠ "object" then
      .error (.interactionError ("Invalid interaction request provided - " ++ jsToString willRespondWith))
    else if isNull willRespondWith then
      .error (.typeError "Cannot read properties of null")
    else if jsTypeof (pureProp willRespondWith "status") ≠ "number" then
      .error (.interactionError ("Invalid interaction response status provided - " ++ jsToString (pureProp willRespondWith "status")))
    else
      .ok ()

mutual

/-- The value denoted by `JSON.parse(JSON.stringify(v))` when `v` survives
serialization, `none` when `JSON.stringify(v)` yields `undefined`
(for `undefined` and functions). -/
def jsonVal : JSValue → Option JSValue
  | .undefined => none
  | .func _ => none
  | .null => some .null
  | .bool b => some (.bool b)
  | .num n => some (.num n)
  | .str s => some (.str s)
  | .obj fields => some (.obj (jsonFields fields))
  | .arr elems => some (.arr (jsonElems elems))

/-- Object fields under JSON round-tripping: fields whose value does not
serialize (undefined, functions) are dropped. -/
def jsonFields : List (String × JSValue) → List (String × JSValue)
  | [] => []
  | (k, v) :: rest =>
      match jsonVal v with
      | none => jsonFields rest
      | some w => (k, w) :: jsonFields rest

/-- Array elements under JSON round-tripping: elements that do not serialize
become `null`. -/
def jsonElems : List JSValue → List JSValue
  | [] => []
  | v :: rest => (jsonVal v).getD .null :: jsonElems rest

end

/-- The `JSON.parse(JSON.stringify(v))` deep copy as used by the
`InteractionResponse` constructor; it is only applied to truthy values of
object type, for which serialization always yields a value. -/
def jsonRoundTrip (v : JSValue) : JSValue :=
  (jsonVal v).getD .undefined

/-- The `InteractionRequest` class of src/models/interaction.js: all fields
are JavaScript values, mirroring that a JS object field can hold anything. -/
structure InteractionRequest where
  method : JSValue
  path : JSValue
  headers : JSValue
  query : JSValue
  body : JSValue
  ignoreBody : JSValue
  ignoreQuery : JSValue
deriving Repr

/-- The `InteractionRequest` constructor: copies the request fields and sets
`ignoreBody`/`ignoreQuery` to `false` unless the supplied value is itself a
boolean. Within the repository it is only invoked on a `withRequest` that
already passed `validateInteraction`, so plain property reads suffice. -/
def InteractionRequest.construct (request : JSValue) : InteractionRequest :=
  { method := pureProp request "method"
    path := pureProp request "path"
    headers := pureProp request "headers"
    query := pureProp request "query"
    body := pureProp request "body"
    ignoreBody :=
      if jsTypeof (pureProp request "ignoreBody") = "boolean" then pureProp request "ignoreBody"
      else .bool false
    ignoreQuery :=
      if jsTypeof (pureProp request "ignoreQuery") = "boolean" then pureProp request "ignoreQuery"
      else .bool false }

/-- The `InteractionResponse` class of src/models/interaction.js. -/
structure InteractionResponse where
  status : JSValue
  headers : JSValue
  rawBody : JSValue
  body : JSValue
deriving Repr

/-- The `InteractionResponse` constructor: `rawBody` is a JSON deep copy of a
truthy object-typed body (the original value otherwise), `body` is the
value-matcher transform of the body. `helper.setValueFromMatcher` lives
outside the specified core (an external collaborator per the spec), so the
transform is a parameter. -/
def InteractionResponse.construct (transform : JSValue → JSValue) (response : JSValue) :
    InteractionResponse :=
  { status := pureProp response "status"
    headers := pureProp response "headers"
    rawBody :=
      if truthy (pureProp response "body") ∧ jsTypeof (pureProp response "body") = "object" then
        jsonRoundTrip (pureProp response "body")
      else pureProp response "body"
    body := transform (pureProp response "body") }

/-- Modelled from the spec: `helper.getRandomId` of src/helpers/helper.js is
not part of the provided sources; the spec only requires an id generator
producing a text identifier unique within the process. It is modelled as a
deterministic function of a process-wide counter. -/
def getRandomId (n : Nat) : String :=
  "rid" ++ toString n

/-- The external collaborators of the Interaction constructor: the configured
pact consumer name (`config.pact.consumer`) and the value-matcher transform
(`helper.setValueFromMatcher`), both outside the specified core. -/
structure Env where
  pactConsumer : JSValue
  transform : JSValue → JSValue

/-- The `Interaction` class of src/models/interaction.js. -/
structure Interaction where
  id : JSValue
  port : JSValue
  mock : Bool
  consumer : JSValue
  provider : JSValue
  state : JSValue
  uponReceiving : JSValue
  rawInteraction : JSValue
  withRequest : InteractionRequest
  willRespondWith : InteractionResponse
deriving Repr

/-- The `Interaction` constructor: validates first, then destructures and
assigns fields, defaulting falsy `id`/`port`/`consumer` through the JS `||`
operator. `helper.getRandomId()` is called only when the caller-supplied id
is falsy (JS short-circuit), so the id counter advances exactly then; the
constructor returns the updated counter. `cfgPort` is the current
`config.mock.port`. -/
def Interaction.construct (env : Env) (cfgPort : JSValue) (rawInteraction : JSValue)
    (mock : Bool) (ctr : Nat) : Except JsError (Interaction × Nat) :=
  match validateInteraction rawInteraction mock with
  | .error e => .error e
  | .ok _ =>
      let idv := pureProp rawInteraction "id"
      .ok
        ({ id := if truthy idv then idv else .str (getRandomId ctr)
           port := if truthy (pureProp rawInteraction "port") then pureProp rawInteraction "port" else cfgPort
           mock := mock
           consumer := if truthy (pureProp rawInteraction "consumer") then pureProp rawInteraction "consumer" else env.pactConsumer
           provider := pureProp rawInteraction "provider"
           state := pureProp rawInteraction "state"
           uponReceiving := pureProp rawInteraction "uponReceiving"
           rawInteraction := rawInteraction
           withRequest := InteractionRequest.construct (pureProp rawInteraction "withRequest")
           willRespondWith := InteractionResponse.construct env.transform (pureProp rawInteraction "willRespondWith") },
         if truthy idv then ctr else ctr + 1)

mutual

/-- Structural value equality on `JSValue`, used as the key comparison of the
module-level `interactions` Map (ids are strings in every reachable use, for
which JavaScript's SameValueZero comparison is value equality). -/
def jsEq : JSValue → JSValue → Bool
  | .undefined, .undefined => true
  | .null, .null => true
  | .bool a, .bool b => a == b
  | .num a, .num b => a == b
  | .str a, .str b => a == b
  | .func a, .func b => a == b
  | .obj fs, .obj gs => jsEqFields fs gs
  | .arr es, .arr ds => jsEqElems es ds
  | _, _ => false

/-- Pointwise equality of field lists. -/
def jsEqFields : List (String × JSValue) → List (String × JSValue) → Bool
  | [], [] => true
  | (k, v) :: rest, (k', v') :: rest' => k == k' && jsEq v v' && jsEqFields rest rest'
  | _, _ => false

/-- Pointwise equality of element lists. -/
def jsEqElems : List JSValue → List JSValue → Bool
  | [], [] => true
  | v :: rest, v' :: rest' => jsEq v v' && jsEqElems rest rest'
  | _, _ => false

end

/-- `Map.prototype.set` on an association list: overwrite the entry of an
existing key, append otherwise. -/
def mapSet (entries : List (JSValue × Interaction)) (key : JSValue) (it : Interaction) :
    List (JSValue × Interaction) :=
  match entries with
  | [] => [(key, it)]
  | (k, v) :: rest => if jsEq k key then (k, it) :: rest else (k, v) :: mapSet rest key it

/-- The mutable state touched by the Mock control plane (src/mock.js): the
process-wide `config.mock.port`, the module-level `interactions` Map, the
freshness counter of the id generator, and call logs recording, in call
order, what was delegated to the injected server (`_server.start/stop/
addDefaultInteraction/removeDefaultInteraction/removeDefaultInteractions`)
and to the external store (`store.addInteraction`). -/
structure MockState where
  configMockPort : JSValue
  interactionsMap : List (JSValue × Interaction)
  idCtr : Nat
  serverStartLog : List JSValue
  serverStopLog : List JSValue
  serverAddLog : List (JSValue × Interaction)
  serverRemoveLog : List (JSValue × JSValue)
  serverRemoveAllLog : List JSValue
  storeLog : List Interaction
deriving Repr

/-- A JavaScript default parameter `port = config.mock.port`: the default is
used exactly when the caller passes `undefined`. -/
def defaultedPort (s : MockState) (port : JSValue) : JSValue :=
  if isUndefined port then s.configMockPort else port

/-- `Mock.start` of src/mock.js: rejects a non-numeric (defaulted) port with
a `PactumConfigurationError`, otherwise delegates to `_server.start`. -/
def Mock.start (port : JSValue) (s : MockState) : MockState × Except JsError Unit :=
  let p := defaultedPort s port
  if jsTypeof p ≠ "number" then
    (s, .error (.configurationError ("Invalid port number given to start the mock server - " ++ jsToString p)))
  else
    ({ s with serverStartLog := s.serverStartLog ++ [p] }, .ok ())

/-- `Mock.stop` of src/mock.js: rejects a non-numeric (defaulted) port,
otherwise delegates to `_server.stop`. -/
def Mock.stop (port : JSValue) (s : MockState) : MockState × Except JsError Unit :=
  let p := defaultedPort s port
  if jsTypeof p ≠ "number" then
    (s, .error (.configurationError ("Invalid port number given to stop the mock server - " ++ jsToString p)))
  else
    ({ s with serverStopLog := s.serverStopLog ++ [p] }, .ok ())

/-- `Mock.setDefaultPort` of src/mock.js: rejects a non-numeric port (no
defaulting), otherwise mutates `config.mock.port`. -/
def Mock.setDefaultPort (port : JSValue) (s : MockState) : MockState × Except JsError Unit :=
  if jsTypeof port ≠ "number" then
    (s, .error (.configurationError ("Invalid default port number - " ++ jsToString port)))
  else
    ({ s with configMockPort := port }, .ok ())

/-- `Mock.addDefaultMockInteraction` of src/mock.js: constructs an
`Interaction` in mock mode, registers it with the injected server, and
returns its id; it never touches the `interactions` Map or the store. -/
def Mock.addDefaultMockInteraction (env : Env) (interaction : JSValue) (s : MockState) :
    MockState × Except JsError JSValue :=
  match Interaction.construct env s.configMockPort interaction true s.idCtr with
  | .error e => (s, .error e)
  | .ok (it, ctr') =>
      ({ s with serverAddLog := s.serverAddLog ++ [(it.id, it)], idCtr := ctr' }, .ok it.id)

/-- The loop body of `Mock.addDefaultMockInteractions`: constructs each
element in mock mode, registering it with the server and accumulating its id;
a construction failure propagates, leaving earlier registrations in place. -/
def Mock.addMockLoop (env : Env) :
    List JSValue → MockState → List JSValue → MockState × Except JsError (List JSValue)
  | [], s, ids => (s, .ok ids)
  | raw :: rest, s, ids =>
      match Interaction.construct env s.configMockPort raw true s.idCtr with
      | .error e => (s, .error e)
      | .ok (it, ctr') =>
          Mock.addMockLoop env rest
            { s with serverAddLog := s.serverAddLog ++ [(it.id, it)], idCtr := ctr' }
            (ids ++ [it.id])

/-- `Mock.addDefaultMockInteractions` of src/mock.js: a non-array argument
fails with a `PactumConfigurationError` before any element is processed;
otherwise each element is constructed and registered in order. -/
def Mock.addDefaultMockInteractions (env : Env) (interactions : JSValue) (s : MockState) :
    MockState × Except JsError (List JSValue) :=
  match interactions with
  | .arr list => Mock.addMockLoop env list s []
  | other => (s, .error (.configurationError ("Invalid mock interactions array passed - " ++ jsToString other)))

/-- `Mock.addDefaultPactInteraction` of src/mock.js: constructs in contract
mode, enters the result into the module-level `interactions` Map, registers
it with the injected server, forwards it to the external store, and returns
its id. -/
def Mock.addDefaultPactInteraction (env : Env) (interaction : JSValue) (s : MockState) :
    MockState × Except JsError JSValue :=
  match Interaction.construct env s.configMockPort interaction false s.idCtr with
  | .error e => (s, .error e)
  | .ok (it, ctr') =>
      ({ s with interactionsMap := mapSet s.interactionsMap it.id it,
                serverAddLog := s.serverAddLog ++ [(it.id, it)],
                storeLog := s.storeLog ++ [it],
                idCtr := ctr' }, .ok it.id)

/-- The loop body of `Mock.addDefaultPactInteractions`: each element is
constructed in contract mode and registered with the injected server only —
the parameter shadows the module-level `interactions` Map, and neither the
Map nor `store.addInteraction` is touched inside the loop. -/
def Mock.addPactLoop (env : Env) :
    List JSValue → MockState → List JSValue → MockState × Except JsError (List JSValue)
  | [], s, ids => (s, .ok ids)
  | raw :: rest, s, ids =>
      match Interaction.construct env s.configMockPort raw false s.idCtr with
      | .error e => (s, .error e)
      | .ok (it, ctr') =>
          Mock.addPactLoop env rest
            { s with serverAddLog := s.serverAddLog ++ [(it.id, it)], idCtr := ctr' }
            (ids ++ [it.id])

/-- `Mock.addDefaultPactInteractions` of src/mock.js: a non-array argument
fails with a `PactumConfigurationError`; otherwise each element is
constructed in contract mode and registered with the server in order. -/
def Mock.addDefaultPactInteractions (env : Env) (interactions : JSValue) (s : MockState) :
    MockState × Except JsError (List JSValue) :=
  match interactions with
  | .arr list => Mock.addPactLoop env list s []
  | other => (s, .error (.configurationError ("Invalid pact interactions array passed - " ++ jsToString other)))

/-- `Mock.removeDefaultInteraction` of src/mock.js: rejects a non-(non-empty-
string) interaction id, then a non-numeric (defaulted) port, then delegates
to `_server.removeDefaultInteraction`. -/
def Mock.removeDefaultInteraction (interactionId : JSValue) (port : JSValue) (s : MockState) :
    MockState × Except JsError Unit :=
  let p := defaultedPort s port
  if jsTypeof interactionId ≠ "string" ∨ truthy interactionId = false then
    (s, .error (.configurationError ("Invalid interaction id - " ++ jsToString interactionId)))
  else if jsTypeof p ≠ "number" then
    (s, .error (.configurationError ("Invalid port number - " ++ jsToString p)))
  else
    ({ s with serverRemoveLog := s.serverRemoveLog ++ [(interactionId, p)] }, .ok ())

/-- `Mock.removeDefaultInteractions` of src/mock.js: no argument validation
at all — the (defaulted) port is handed straight to
`_server.removeDefaultInteractions`. -/
def Mock.removeDefaultInteractions (port : JSValue) (s : MockState) :
    MockState × Except JsError Unit :=
  let p := defaultedPort s port
  ({ s with serverRemoveAllLog := s.serverRemoveAllLog ++ [p] }, .ok ())

/-- Modelled from the spec: the named handler registry of
src/exports/handler.js is not among the provided sources (only its tests
are). Per the spec it is one generic name-to-function store per handler
kind, identified by a human-readable kind label used in lookup-miss
messages. -/
structure HandlerRegistry where
  kind : String
  entries : List (String × JSValue)
deriving Repr

/-- Assoc-list lookup for registry entries. -/
def lookupEntry : List (String × JSValue) → String → Option JSValue
  | [], _ => none
  | (k, v) :: rest, key => if k = key then some v else lookupEntry rest key

/-- Overwrite-or-append for registry entries (last write wins). -/
def setEntry : List (String × JSValue) → String → JSValue → List (String × JSValue)
  | [], key, v => [(key, v)]
  | (k, w) :: rest, key, v =>
      if k = key then (k, v) :: rest else (k, w) :: setEntry rest key v

/-- Modelled from the spec: `add(name, func)` of the handler registry. It
fails with a `HandlerError` when `name` is not non-empty text, fails when
`func` is not a callable value, and otherwise stores or overwrites the
mapping unconditionally (exactly the behaviour the tests in the provided
test file assert, with the exact messages they expect). -/
def HandlerRegistry.add (reg : HandlerRegistry) (name fn : JSValue) :
    Except JsError HandlerRegistry :=
  if jsTypeof name ≠ "string" ∨ truthy name = false then
    .error (.handlerError "`name` is required")
  else if jsTypeof fn ≠ "function" then
    .error (.handlerError "`func` is required")
  else
    .ok { reg with entries := setEntry reg.entries (jsToString name) fn }

/-- Modelled from the spec: `get(name)` of the handler registry. A lookup
miss fails with a `HandlerError` whose message embeds the registry's kind
label and the requested name verbatim; a hit returns the stored callable. -/
def HandlerRegistry.get (reg : HandlerRegistry) (name : String) : Except JsError JSValue :=
  match lookupEntry reg.entries name with
  | some fn => .ok fn
  | none => .error (.handlerError ("Custom " ++ reg.kind ++ " Handler Not Found - " ++ name))

end Pactum

namespace Pactum.RefModel

/-!
A reference-semantics model of the `InteractionResponse` constructor
(src/models/interaction.js, lines 27-40), used to state the aliasing
properties of `rawBody`: object values live in an explicit heap of numbered
cells, so "same reference" and "mutation of the caller's object" are
expressible. Deep values are trees over the JSON-representable fragment
(the domain of structured response bodies).
-/

/-- A runtime value slot: a primitive or a reference into the heap. -/
inductive RVal where
  | undefined : RVal
  | null : RVal
  | bool (b : Bool) : RVal
  | num (n : Int) : RVal
  | str (s : String) : RVal
  | ref (a : Nat) : RVal
deriving Repr, DecidableEq

/-- A heap: numbered object cells (association lists of fields) plus the
next fresh address. -/
structure RHeap where
  cells : List (Nat × List (String × RVal))
  next : Nat
deriving Repr, DecidableEq

/-- Look up the field list of the cell at an address. -/
def RHeap.lookupCell (h : RHeap) (a : Nat) : Option (List (String × RVal)) :=
  match h.cells.find? (fun c => c.1 == a) with
  | some c => some c.2
  | none => none

/-- Heap well-formedness: every allocated cell sits below `next`. -/
def RHeap.WF (h : RHeap) : Prop :=
  ∀ c ∈ h.cells, c.1 < h.next

mutual

/-- A deep (reference-free) value: the JSON-representable structured data a
response body denotes. -/
inductive Tree where
  | null : Tree
  | bool (b : Bool) : Tree
  | num (n : Int) : Tree
  | str (s : String) : Tree
  | obj (fs : TFields) : Tree

/-- Fields of a deep object value. -/
inductive TFields where
  | nil : TFields
  | cons (k : String) (v : Tree) (rest : TFields) : TFields

end

mutual

/-- Fuel sufficient to deep-read a tree (counts object nesting). -/
def treeFuel : Tree → Nat
  | .null | .bool _ | .num _ | .str _ => 0
  | .obj fs => fieldsFuel fs + 1

/-- Fuel sufficient to deep-read a field list. -/
def fieldsFuel : TFields → Nat
  | .nil => 0
  | .cons _ v rest => max (treeFuel v) (fieldsFuel rest)

end

mutual

/-- Deep read of a runtime value: resolve references through the heap into a
tree, with fuel bounding reference-chasing (a cyclic structure, which
`JSON.stringify` rejects, exhausts any fuel). `undefined` has no JSON tree. -/
def deepRead (h : RHeap) : Nat → RVal → Option Tree
  | _, .undefined => none
  | _, .null => some .null
  | _, .bool b => some (.bool b)
  | _, .num n => some (.num n)
  | _, .str s => some (.str s)
  | 0, .ref _ => none
  | fuel + 1, .ref a =>
      match h.lookupCell a with
      | none => none
      | some fs =>
          match readFields h fuel fs with
          | none => none
          | some ts => some (.obj ts)
termination_by fuel _ => (fuel, 0)

/-- Deep read of a cell's field list. -/
def readFields (h : RHeap) : Nat → List (String × RVal) → Option TFields
  | _, [] => some .nil
  | fuel, (k, v) :: rest =>
      match deepRead h fuel v, readFields h fuel rest with
      | some t, some ts => some (.cons k t ts)
      | _, _ => none
termination_by fuel l => (fuel, l.length + 1)

end

mutual

/-- Allocate a deep tree into the heap as fresh cells, returning the new
heap and the runtime value of the copy; this is what
`JSON.parse(JSON.stringify(body))` produces for a JSON-representable body. -/
def allocTree (h : RHeap) : Tree → RHeap × RVal
  | .null => (h, .null)
  | .bool b => (h, .bool b)
  | .num n => (h, .num n)
  | .str s => (h, .str s)
  | .obj fs =>
      let (h1, fvs) := allocFields h fs
      (⟨(h1.next, fvs) :: h1.cells, h1.next + 1⟩, .ref h1.next)

/-- Allocate the fields of a deep object, left to right. -/
def allocFields (h : RHeap) : TFields → RHeap × List (String × RVal)
  | .nil => (h, [])
  | .cons k v rest =>
      let (h1, rv) := allocTree h v
      let (h2, rvs) := allocFields h1 rest
      (h2, (k, rv) :: rvs)

end

/-- JavaScript truthiness of a runtime value. -/
def truthyR : RVal → Bool
  | .undefined => false
  | .null => false
  | .bool b => b
  | .num n => n != 0
  | .str s => s ≠ ""
  | .ref _ => true

/-- The `typeof` operator on runtime values (`typeof null` is `"object"`). -/
def typeofR : RVal → String
  | .undefined => "undefined"
  | .null => "object"
  | .bool _ => "boolean"
  | .num _ => "number"
  | .str _ => "string"
  | .ref _ => "object"

/-- Field lookup in a cell's field list, with the JavaScript `undefined`
default for a missing field. -/
def lookupF : List (String × RVal) → String → RVal
  | [], _ => .undefined
  | (k, v) :: rest, key => if k = key then v else lookupF rest key

/-- Property read: `none` models the TypeError of reading a property of
`null`/`undefined` and the stuck case of a dangling reference. -/
def getFieldR (h : RHeap) (v : RVal) (key : String) : Option RVal :=
  match v with
  | .null => none
  | .undefined => none
  | .ref a =>
      match h.lookupCell a with
      | some fs => some (lookupF fs key)
      | none => none
  | _ => some .undefined

/-- The `InteractionResponse` record in the reference model; `body` is the
result of the external value-matcher transform, a pure function of the deep
value of `response.body` per the spec's interface contract. -/
structure IResponse where
  status : RVal
  headers : RVal
  rawBody : RVal
  body : Tree

/-- The `InteractionResponse` constructor with reference semantics: reads
`status`, `headers` and `body` off the response object; a truthy
object-typed body is deep-copied through JSON round-tripping (fresh cells),
any other body is stored as-is (the same value slot); `body` is the
transform of the deep value. `none` models a thrown TypeError or a
`JSON.stringify` failure on a cyclic body. -/
def mkIResponse (transform : Option Tree → Tree) (h : RHeap) (fuel : Nat) (response : RVal) :
    Option (RHeap × IResponse) :=
  match getFieldR h response "status", getFieldR h response "headers",
        getFieldR h response "body" with
  | some st, some hd, some b =>
      if truthyR b ∧ typeofR b = "object" then
        match deepRead h fuel b with
        | none => none
        | some B =>
            let (h', rb) := allocTree h B
            some (h', { status := st, headers := hd, rawBody := rb, body := transform (some B) })
      else
        some (h, { status := st, headers := hd, rawBody := b, body := transform (deepRead h fuel b) })
  | _, _, _ => none

end Pactum.RefModel

namespace Pactum

/-- A concrete environment for concrete runs: a configured consumer name and
the identity value-matcher transform. -/
def env0 : Env := { pactConsumer := .str "default-consumer", transform := fun v => v }

/-- The initial control-plane state: default port 9393, empty Map, empty
logs. -/
def s0 : MockState := ⟨.num 9393, [], 0, [], [], [], [], [], []⟩

/-- A valid contract-mode (pact) raw interaction. -/
def rawPact : JSValue :=
  .obj [("provider", .str "pv"), ("state", .str "st"), ("uponReceiving", .str "desc"),
        ("withRequest", .obj [("method", .str "GET"), ("path", .str "/api")]),
        ("willRespondWith", .obj [("status", .num 200)])]

/-- A valid mock-mode raw interaction without a caller-supplied id. -/
def rawMock1 : JSValue :=
  .obj [("withRequest", .obj [("method", .str "GET"), ("path", .str "/a")]),
        ("willRespondWith", .obj [("status", .num 200)])]

/-- A second valid mock-mode raw interaction, with a caller-supplied id. -/
def rawMock2 : JSValue :=
  .obj [("id", .str "my-id"),
        ("withRequest", .obj [("method", .str "POST"), ("path", .str "/b")]),
        ("willRespondWith", .obj [("status", .num 404)])]

/-- A valid mock-mode raw interaction whose `id`, `port` and `consumer` are
supplied but falsy (empty string, zero, empty string). -/
def rawFalsyDefaults : JSValue :=
  .obj [("id", .str ""), ("port", .num 0), ("consumer", .str ""),
        ("withRequest", .obj [("method", .str "HEAD"), ("path", .str "/c")]),
        ("willRespondWith", .obj [("status", .num 204)])]

/-- A valid mock-mode raw interaction whose `id` is supplied but falsy while
`port` and `consumer` are truthy. -/
def rawMixedDefaults : JSValue :=
  .obj [("id", .str ""), ("port", .num 4000), ("consumer", .str "alice"),
        ("withRequest", .obj [("method", .str "GET"), ("path", .str "/m")]),
        ("willRespondWith", .obj [("status", .num 200)])]

/-- A contract-mode raw interaction with a lowercase request method. -/
def rawBadMethod : JSValue :=
  .obj [("provider", .str "pv"), ("state", .str "st"), ("uponReceiving", .str "desc"),
        ("withRequest", .obj [("method", .str "get"), ("path", .str "/api")]),
        ("willRespondWith", .obj [("status", .num 200)])]

/-- A raw request carrying non-boolean truthy ignore flags. -/
def reqNonBoolFlags : JSValue :=
  .obj [("method", .str "GET"), ("path", .str "/d"),
        ("ignoreBody", .str "yes"), ("ignoreQuery", .num 1)]

/-- An otherwise valid contract-mode raw interaction with `ignoreQuery: true`
and `ignoreBody: true`. -/
def rawPactIgnore : JSValue :=
  .obj [("provider", .str "pv"), ("state", .str "st"), ("uponReceiving", .str "desc"),
        ("withRequest", .obj [("method", .str "PUT"), ("path", .str "/e"),
                              ("ignoreQuery", .bool true), ("ignoreBody", .bool true)]),
        ("willRespondWith", .obj [("status", .num 200)])]

/-- Replace the `ignoreQuery`/`ignoreBody` fields of an interaction's
`withRequest` with the given values (used to state that mock-mode validation
is insensitive to them). -/
def setIgnoreFlags (raw v w : JSValue) : JSValue :=
  setProp raw "withRequest"
    (setProp (setProp (pureProp raw "withRequest") "ignoreQuery" v) "ignoreBody" w)

end Pactum

namespace Pactum.RefModel

/-- A concrete heap for the response model: cell 0 is the caller's body
object, cell 1 the response object referencing it. -/
def h4 : RHeap :=
  ⟨[(0, [("x", .num 1)]), (1, [("status", .num 200), ("body", .ref 0)])], 2⟩

/-- The deep value of the body stored at cell 0 of `h4`. -/
def body4 : Tree := .obj (.cons "x" (.num 1) .nil)

end Pactum.RefModel

namespace Pactum

/-- C2. For inputs whose `typeof` is not `"object"` the first check does
fail with the `Invalid interaction provided` InteractionError; but for the
input `null` — also "not a structured object" — `typeof null === 'object'`
passes the guard and the subsequent destructuring raises a plain TypeError,
not an InteractionError, in both mock and contract mode. This refutes the
claim's "including null … never with any other kind of failure". -/
theorem claim_C2 :
    validateInteraction .null false = .error (.typeError "Cannot destructure property of null") ∧
    validateInteraction .null true = .error (.typeError "Cannot destructure property of null") ∧
    (∀ msg, validateInteraction .null false ≠ .error (.interactionError msg)) ∧
    (∀ msg, validateInteraction .null true ≠ .error (.interactionError msg)) ∧
    validateInteraction .undefined false = .error (.interactionError "Invalid interaction provided") ∧
    validateInteraction (.num 5) false = .error (.interactionError "Invalid interaction provided") ∧
    validateInteraction (.str "x") true = .error (.interactionError "Invalid interaction provided") ∧
    validateInteraction (.bool true) false = .error (.interactionError "Invalid interaction provided") ∧
    validateInteraction (.func 0) true = .error (.interactionError "Invalid interaction provided") := by
  refine ⟨rfl, rfl, ?_, ?_, rfl, rfl, rfl, rfl, rfl⟩ <;>
    · intro msg h
      have h' : Except.error (JsError.typeError "Cannot destructure property of null")
          = Except.error (α := Unit) (JsError.interactionError msg) := h
      simp at h'

/-- C9. Every constructed `InteractionRequest` carries boolean
`ignoreBody`/`ignoreQuery` fields, and a non-boolean supplied value (for
example a truthy string) is replaced by `false`, not kept. -/
theorem claim_C9 (request : JSValue) :
    (∃ b, (InteractionRequest.construct request).ignoreBody = .bool b) ∧
    (∃ b, (InteractionRequest.construct request).ignoreQuery = .bool b) ∧
    (jsTypeof (pureProp request "ignoreBody") ≠ "boolean" →
      (InteractionRequest.construct request).ignoreBody = .bool false) ∧
    (jsTypeof (pureProp request "ignoreQuery") ≠ "boolean" →
      (InteractionRequest.construct request).ignoreQuery = .bool false) := by
  refine ⟨?_, ?_, ?_, ?_⟩
  · by_cases h : jsTypeof (pureProp request "ignoreBody") = "boolean"
    · rcases hv : pureProp request "ignoreBody" with _ | _ | b | n | s | fs | es | t <;>
        first
          | (exact ⟨b, by simp [InteractionRequest.construct, hv, jsTypeof]⟩)
          | simp [jsTypeof, hv] at h
    · exact ⟨false, by simp [InteractionRequest.construct, h]⟩
  · by_cases h : jsTypeof (pureProp request "ignoreQuery") = "boolean"
    · rcases hv : pureProp request "ignoreQuery" with _ | _ | b | n | s | fs | es | t <;>
        first
          | (exact ⟨b, by simp [InteractionRequest.construct, hv, jsTypeof]⟩)
          | simp [jsTypeof, hv] at h
    · exact ⟨false, by simp [InteractionRequest.construct, h]⟩
  · intro h; simp [InteractionRequest.construct, h]
  · intro h; simp [InteractionRequest.construct, h]

/-- C9 witness: a request supplying a truthy string for `ignoreBody` and a
truthy number for `ignoreQuery` yields `false` for both flags. -/
theorem claim_C9_witness :
    (InteractionRequest.construct reqNonBoolFlags).ignoreBody = .bool false ∧
    (InteractionRequest.construct reqNonBoolFlags).ignoreQuery = .bool false :=
  ⟨(claim_C9 reqNonBoolFlags).2.2.1 (by decide), (claim_C9 reqNonBoolFlags).2.2.2 (by decide)⟩

/-- C5. For every handler kind's registry: `add` fails with the exact
`HandlerError` message `` `name` is required `` when the name is not
non-empty text, with `` `func` is required `` when the function is not
callable, and otherwise stores or overwrites the mapping; `get` fails with
the exact kind-labelled not-found message on a miss and returns the stored
callable on a hit. -/
theorem claim_C5 (reg : HandlerRegistry) (name fn : JSValue) (g : String) :
    (¬ (jsTypeof name = "string" ∧ truthy name = true) →
      reg.add name fn = .error (.handlerError "`name` is required")) ∧
    (jsTypeof name = "string" → truthy name = true → jsTypeof fn ≠ "function" →
      reg.add name fn = .error (.handlerError "`func` is required")) ∧
    (jsTypeof name = "string" → truthy name = true → jsTypeof fn = "function" →
      reg.add name fn = .ok { reg with entries := setEntry reg.entries (jsToString name) fn }) ∧
    (lookupEntry reg.entries g = none →
      reg.get g = .error (.handlerError ("Custom " ++ reg.kind ++ " Handler Not Found - " ++ g))) ∧
    (∀ fn', lookupEntry reg.entries g = some fn' → reg.get g = .ok fn') := by
  refine ⟨?_, ?_, ?_, ?_, ?_⟩
  · intro h
    rw [Decidable.not_and_iff_or_not] at h
    have h' : jsTypeof name ≠ "string" ∨ truthy name = false := by
      rcases h with h | h
      · exact Or.inl h
      · exact Or.inr (by simpa using h)
    simp [HandlerRegistry.add, h']
  · intro h1 h2 h3
    simp [HandlerRegistry.add, h1, h2, h3]
  · intro h1 h2 h3
    simp [HandlerRegistry.add, h1, h2, h3]
  · intro h; simp [HandlerRegistry.get, h]
  · intro fn' h; simp [HandlerRegistry.get, h]

/-- C5 witness: the Data-kind registry reproduces the exact behaviours its
tests assert, and a Pact-Interaction-kind lookup miss labels its kind. -/
theorem claim_C5_witness :
    HandlerRegistry.add ⟨"Data", []⟩ .undefined (.func 0)
      = .error (.handlerError "`name` is required") ∧
    HandlerRegistry.add ⟨"Data", []⟩ (.str "") (.func 0)
      = .error (.handlerError "`name` is required") ∧
    HandlerRegistry.add ⟨"Data", []⟩ (.str "hello") (.str "oops")
      = .error (.handlerError "`func` is required") ∧
    HandlerRegistry.add ⟨"Data", []⟩ (.str "hello") (.func 7)
      = .ok ⟨"Data", [("hello", .func 7)]⟩ ∧
    HandlerRegistry.get ⟨"Data", []⟩ "hello"
      = .error (.handlerError "Custom Data Handler Not Found - hello") ∧
    HandlerRegistry.get ⟨"Pact Interaction", []⟩ "hello"
      = .error (.handlerError "Custom Pact Interaction Handler Not Found - hello") ∧
    HandlerRegistry.get ⟨"Data", [("hello", .func 7)]⟩ "hello" = .ok (.func 7) :=
  ⟨(claim_C5 ⟨"Data", []⟩ .undefined (.func 0) "hello").1 (by decide),
   (claim_C5 ⟨"Data", []⟩ (.str "") (.func 0) "hello").1 (by decide),
   (claim_C5 ⟨"Data", []⟩ (.str "hello") (.str "oops") "hello").2.1 rfl rfl (by decide),
   (claim_C5 ⟨"Data", []⟩ (.str "hello") (.func 7) "hello").2.2.1 rfl rfl rfl,
   (claim_C5 ⟨"Data", []⟩ .undefined (.func 0) "hello").2.2.2.1 rfl,
   (claim_C5 ⟨"Pact Interaction", []⟩ .undefined (.func 0) "hello").2.2.2.1 rfl,
   (claim_C5 ⟨"Data", [("hello", .func 7)]⟩ .undefined (.func 0) "hello").2.2.2.2 (.func 7) rfl⟩

/-- C7. Whenever the checks preceding the method check pass (structured
non-null raw interaction, contract fields valid when in contract mode,
structured non-null request) and `withRequest.method` is a string outside
the allowed set — the comparison is exact and case-sensitive — construction
fails with the request-method InteractionError naming that method, in both
mock and contract mode. -/
theorem claim_C7 (raw wr : JSValue) (m : Bool) (s : String)
    (hraw : jsTypeof raw = "object") (hnn : isNull raw = false)
    (hcf : m = false →
      notNonEmptyString (pureProp raw "provider") = false ∧
      notNonEmptyString (pureProp raw "state") = false ∧
      notNonEmptyString (pureProp raw "uponReceiving") = false)
    (hwr : pureProp raw "withRequest" = wr)
    (hwrt : jsTypeof wr = "object") (hwrn : isNull wr = false)
    (hm : pureProp wr "method" = .str s)
    (hs : s ∉ ALLOWED_REQUEST_METHODS) :
    validateInteraction raw m
      = .error (.interactionError ("Invalid interaction request method provided - " ++ s)) ∧
    ∀ env cfgPort ctr, Interaction.construct env cfgPort raw m ctr
      = .error (.interactionError ("Invalid interaction request method provided - " ++ s)) := by
  have hv : validateInteraction raw m
      = .error (.interactionError ("Invalid interaction request method provided - " ++ s)) := by
    unfold validateInteraction
    rw [if_neg (by simp [hraw]), if_neg (by simp [hnn])]
    by_cases hmock : m = false
    · obtain ⟨h1, h2, h3⟩ := hcf hmock
      rw [if_neg (by simp [h1]), if_neg (by simp [h2]), if_neg (by simp [h3]),
        hwr, if_neg (by simp [hwrt]), if_neg (by simp [hwrn])]
      by_cases hempty : s = ""
      · rw [if_pos (by simp [hm, notNonEmptyString, jsTypeof, truthy, hempty])]
        simp [hm, jsToString, hempty]
      · rw [if_neg (by simp [hm, notNonEmptyString, jsTypeof, truthy, hempty]),
          if_pos (by simp [hm, methodAllowed, hs])]
        simp [hm, jsToString]
    · have hmock' : m = true := by revert hmock; cases m <;> simp
      subst hmock'
      rw [if_neg (by simp), if_neg (by simp), if_neg (by simp),
        hwr, if_neg (by simp [hwrt]), if_neg (by simp [hwrn])]
      by_cases hempty : s = ""
      · rw [if_pos (by simp [hm, notNonEmptyString, jsTypeof, truthy, hempty])]
        simp [hm, jsToString, hempty]
      · rw [if_neg (by simp [hm, notNonEmptyString, jsTypeof, truthy, hempty]),
          if_pos (by simp [hm, methodAllowed, hs])]
        simp [hm, jsToString]
  refine ⟨hv, ?_⟩
  intro env cfgPort ctr
  simp [Interaction.construct, hv]

/-- C7 witness: a contract-mode interaction whose method is the lowercase
string `get` fails with the request-method error naming `get`. -/
theorem claim_C7_witness :
    validateInteraction rawBadMethod false
      = .error (.interactionError "Invalid interaction request method provided - get") ∧
    Interaction.construct env0 (.num 9393) rawBadMethod false 0
      = .error (.interactionError "Invalid interaction request method provided - get") := by
  have h := claim_C7 rawBadMethod (.obj [("method", .str "get"), ("path", .str "/api")])
    false "get" (by decide) (by decide) (fun _ => by decide) rfl (by decide)
    (by decide) rfl (by decide)
  exact ⟨h.1, h.2 env0 (.num 9393) 0⟩

/-- C8. For every raw interaction that passes validation, each of the three
defaults applies independently: a falsy supplied `id` is replaced by a
freshly generated identifier (advancing the id counter), a falsy `port` by
the configured mock port, and a falsy `consumer` by the configured consumer
name — whatever the other two fields hold. -/
theorem claim_C8 (env : Env) (cfgPort raw : JSValue) (m : Bool) (ctr : Nat)
    (hok : validateInteraction raw m = .ok ()) :
    ∃ it ctr', Interaction.construct env cfgPort raw m ctr = .ok (it, ctr') ∧
      (truthy (pureProp raw "id") = false →
        it.id = .str (getRandomId ctr) ∧ ctr' = ctr + 1) ∧
      (truthy (pureProp raw "port") = false → it.port = cfgPort) ∧
      (truthy (pureProp raw "consumer") = false → it.consumer = env.pactConsumer) := by
  have h : Interaction.construct env cfgPort raw m ctr
      = .ok ({ id := if truthy (pureProp raw "id") then pureProp raw "id"
                     else .str (getRandomId ctr),
               port := if truthy (pureProp raw "port") then pureProp raw "port" else cfgPort,
               mock := m,
               consumer := if truthy (pureProp raw "consumer") then pureProp raw "consumer"
                           else env.pactConsumer,
               provider := pureProp raw "provider", state := pureProp raw "state",
               uponReceiving := pureProp raw "uponReceiving", rawInteraction := raw,
               withRequest := InteractionRequest.construct (pureProp raw "withRequest"),
               willRespondWith := InteractionResponse.construct env.transform (pureProp raw "willRespondWith") },
             if truthy (pureProp raw "id") then ctr else ctr + 1) := by
    simp [Interaction.construct, hok]
  refine ⟨_, _, h, ?_, ?_, ?_⟩
  · intro hid
    exact ⟨by simp [hid], by simp [hid]⟩
  · intro hport
    simp [hport]
  · intro hcons
    simp [hcons]

/-- C8 witness: a valid mock interaction supplying the empty string as id,
`0` as port and the empty string as consumer receives the generated id, the
configured port and the configured consumer instead; and on a mixed input —
falsy id next to truthy port and consumer — the id replacement still
applies on its own. -/
theorem claim_C8_witness :
    (∃ it, Interaction.construct env0 (.num 9393) rawFalsyDefaults true 0 = .ok (it, 1) ∧
      it.id = .str (getRandomId 0) ∧ it.port = .num 9393 ∧
      it.consumer = .str "default-consumer") ∧
    (∃ it, Interaction.construct env0 (.num 9393) rawMixedDefaults true 0 = .ok (it, 1) ∧
      it.id = .str (getRandomId 0)) := by
  constructor
  · obtain ⟨it, ctr', hc, h1, h2, h3⟩ := claim_C8 env0 (.num 9393) rawFalsyDefaults true 0 rfl
    obtain ⟨hid, hctr⟩ := h1 (by decide)
    rw [hctr] at hc
    exact ⟨it, hc, hid, h2 (by decide), h3 (by decide)⟩
  · obtain ⟨it, ctr', hc, h1, h2, h3⟩ := claim_C8 env0 (.num 9393) rawMixedDefaults true 0 rfl
    obtain ⟨hid, hctr⟩ := h1 (by decide)
    rw [hctr] at hc
    exact ⟨it, hc, hid⟩

/-- C10. `removeDefaultInteractions` performs no argument validation: for
every argument (numeric or not) it delegates the defaulted port to the
injected server's bulk removal and returns without error — while
`setDefaultPort`, `start`, `stop` and `removeDefaultInteraction` (given a
valid id) all reject the same non-numeric port with a
`PactumConfigurationError`. -/
theorem claim_C10 (s : MockState) (port id : JSValue) :
    Mock.removeDefaultInteractions port s
      = ({ s with serverRemoveAllLog := s.serverRemoveAllLog ++ [defaultedPort s port] }, .ok ()) ∧
    (jsTypeof port ≠ "number" →
      Mock.setDefaultPort port s
        = (s, .error (.configurationError ("Invalid default port number - " ++ jsToString port))) ∧
      (isUndefined port = false →
        Mock.start port s
          = (s, .error (.configurationError ("Invalid port number given to start the mock server - " ++ jsToString port))) ∧
        Mock.stop port s
          = (s, .error (.configurationError ("Invalid port number given to stop the mock server - " ++ jsToString port))) ∧
        (jsTypeof id = "string" → truthy id = true →
          Mock.removeDefaultInteraction id port s
            = (s, .error (.configurationError ("Invalid port number - " ++ jsToString port)))))) := by
  refine ⟨rfl, ?_⟩
  intro hnum
  refine ⟨by simp [Mock.setDefaultPort, hnum], ?_⟩
  intro hu
  have hd : defaultedPort s port = port := by simp [defaultedPort, hu]
  refine ⟨by simp [Mock.start, hd, hnum], by simp [Mock.stop, hd, hnum], ?_⟩
  intro h1 h2
  simp [Mock.removeDefaultInteraction, hd, hnum, h1, h2]

/-- C10 witness: with the string port `nope`, bulk removal logs the call and
succeeds while the four validating operations each fail with their
configuration error. -/
theorem claim_C10_witness :
    Mock.removeDefaultInteractions (.str "nope") s0
      = ({ s0 with serverRemoveAllLog := [.str "nope"] }, .ok ()) ∧
    Mock.setDefaultPort (.str "nope") s0
      = (s0, .error (.configurationError "Invalid default port number - nope")) ∧
    Mock.start (.str "nope") s0
      = (s0, .error (.configurationError "Invalid port number given to start the mock server - nope")) ∧
    Mock.stop (.str "nope") s0
      = (s0, .error (.configurationError "Invalid port number given to stop the mock server - nope")) ∧
    Mock.removeDefaultInteraction (.str "x") (.str "nope") s0
      = (s0, .error (.configurationError "Invalid port number - nope")) := by
  obtain ⟨h1, h2⟩ := claim_C10 s0 (.str "nope") (.str "x")
  obtain ⟨h3, h4⟩ := h2 (by decide)
  obtain ⟨h5, h6, h7⟩ := h4 (by decide)
  exact ⟨h1, h3, h5, h6, h7 rfl (by decide)⟩

/-- Reading a field after an overwrite-or-append: the written value at the
written key, the old value elsewhere. -/
theorem getField_setField (fs : List (String × JSValue)) (k : String) (v : JSValue)
    (k' : String) :
    getField (setField fs k v) k' = if k = k' then v else getField fs k' := by
  induction fs with
  | nil => simp [setField, getField]
  | cons hd tl ih =>
      obtain ⟨a, w⟩ := hd
      by_cases hak : a = k
      · subst hak
        simp only [setField, if_pos rfl, getField]
        by_cases hk' : a = k' <;> simp [hk', getField]
      · simp only [setField, if_neg hak, getField]
        by_cases hk' : a = k'
        · subst hk'
          have : ¬ k = a := fun h => hak h.symm
          simp [this, getField, ih]
        · simp [hk', getField, ih]

/-- A property write does not change `typeof`. -/
theorem jsTypeof_setProp (u : JSValue) (k : String) (x : JSValue) :
    jsTypeof (setProp u k x) = jsTypeof u := by
  cases u <;> rfl

/-- A property write does not change null-ness. -/
theorem isNull_setProp (u : JSValue) (k : String) (x : JSValue) :
    isNull (setProp u k x) = isNull u := by
  cases u <;> rfl

/-- A property write leaves every other property unchanged. -/
theorem pureProp_setProp_ne (u : JSValue) (k : String) (x : JSValue) (k' : String)
    (h : k ≠ k') : pureProp (setProp u k x) k' = pureProp u k' := by
  cases u <;> simp [setProp, pureProp, getField_setField, h]

/-- Reading any property of an object after a property write. -/
theorem pureProp_setProp_obj (fs : List (String × JSValue)) (k : String) (x : JSValue)
    (k' : String) :
    pureProp (setProp (.obj fs) k x) k' = if k = k' then x else pureProp (.obj fs) k' := by
  simp [setProp, pureProp, getField_setField]

/-- A property write does not change template-literal string conversion. -/
theorem jsToString_setProp (u : JSValue) (k : String) (x : JSValue) :
    jsToString (setProp u k x) = jsToString u := by
  cases u <;> rfl

/-- C6. On an otherwise valid contract-mode interaction a truthy
`ignoreQuery` fails construction with the unsupported-ignore-query
InteractionError, and a truthy `ignoreBody` (with `ignoreQuery` falsy) with
the unsupported-ignore-body one; in mock mode validation is entirely
insensitive to these two fields, so the same values never cause the failure
there. -/
theorem claim_C6 (raw wr : JSValue)
    (hraw : jsTypeof raw = "object") (hnn : isNull raw = false)
    (hprov : notNonEmptyString (pureProp raw "provider") = false)
    (hstate : notNonEmptyString (pureProp raw "state") = false)
    (hupon : notNonEmptyString (pureProp raw "uponReceiving") = false)
    (hwr : pureProp raw "withRequest" = wr)
    (hwrt : jsTypeof wr = "object") (hwrn : isNull wr = false)
    (hmeth : notNonEmptyString (pureProp wr "method") = false)
    (hallow : methodAllowed (pureProp wr "method") = true)
    (hpath : notNonEmptyString (pureProp wr "path") = false) :
    (truthy (pureProp wr "ignoreQuery") = true →
      validateInteraction raw false
        = .error (.interactionError "Pact interaction won't support ignore query")) ∧
    (truthy (pureProp wr "ignoreQuery") = false → truthy (pureProp wr "ignoreBody") = true →
      validateInteraction raw false
        = .error (.interactionError "Pact interaction won't support ignore body")) ∧
    (∀ v w raw', validateInteraction (setIgnoreFlags raw' v w) true
      = validateInteraction raw' true) := by
  refine ⟨?_, ?_, ?_⟩
  · intro hq
    unfold validateInteraction
    rw [if_neg (by simp [hraw]), if_neg (by simp [hnn]),
      if_neg (by simp [hprov]), if_neg (by simp [hstate]), if_neg (by simp [hupon]),
      hwr, if_neg (by simp [hwrt]), if_neg (by simp [hwrn]),
      if_neg (by simp [hmeth]), if_neg (by simp [hallow]), if_neg (by simp [hpath]),
      if_pos (by simp [hq])]
  · intro hq hb
    unfold validateInteraction
    rw [if_neg (by simp [hraw]), if_neg (by simp [hnn]),
      if_neg (by simp [hprov]), if_neg (by simp [hstate]), if_neg (by simp [hupon]),
      hwr, if_neg (by simp [hwrt]), if_neg (by simp [hwrn]),
      if_neg (by simp [hmeth]), if_neg (by simp [hallow]), if_neg (by simp [hpath]),
      if_neg (by simp [hq]), if_pos (by simp [hb])]
  · intro v w raw'
    cases raw' with
    | obj fs =>
        have hXm : pureProp (setProp (setProp (pureProp (.obj fs) "withRequest") "ignoreQuery" v) "ignoreBody" w) "method"
            = pureProp (pureProp (.obj fs) "withRequest") "method" := by
          rw [pureProp_setProp_ne _ _ _ _ (by decide), pureProp_setProp_ne _ _ _ _ (by decide)]
        have hXp : pureProp (setProp (setProp (pureProp (.obj fs) "withRequest") "ignoreQuery" v) "ignoreBody" w) "path"
            = pureProp (pureProp (.obj fs) "withRequest") "path" := by
          rw [pureProp_setProp_ne _ _ _ _ (by decide), pureProp_setProp_ne _ _ _ _ (by decide)]
        simp only [setIgnoreFlags]
        unfold validateInteraction
        simp only [pureProp_setProp_obj, jsTypeof_setProp, isNull_setProp, jsToString_setProp,
          hXm, hXp]
        simp [jsTypeof_setProp, isNull_setProp, jsToString_setProp, hXm, hXp,
          pureProp_setProp_obj]
    | undefined => rfl
    | null => rfl
    | bool b => rfl
    | num n => rfl
    | str s => rfl
    | arr es => rfl
    | func t => rfl

/-- C6 witness: a contract-mode interaction with both ignore flags true
fails on the query flag, while with the very same flag values mock-mode
validation is unaffected and succeeds. -/
theorem claim_C6_witness :
    validateInteraction rawPactIgnore false
      = .error (.interactionError "Pact interaction won't support ignore query") ∧
    validateInteraction (setIgnoreFlags rawPactIgnore (.bool true) (.bool true)) true
      = validateInteraction rawPactIgnore true ∧
    validateInteraction rawPactIgnore true = .ok () := by
  have h := claim_C6 rawPactIgnore
    (.obj [("method", .str "PUT"), ("path", .str "/e"),
           ("ignoreQuery", .bool true), ("ignoreBody", .bool true)])
    (by decide) (by decide) (by decide) (by decide) (by decide) rfl
    (by decide) (by decide) (by decide) (by decide) (by decide)
  exact ⟨h.1 (by decide), h.2.2 (.bool true) (.bool true) rawPactIgnore, rfl⟩

/-- When validation succeeds, construction succeeds (validation is the only
failure point of the constructor). -/
theorem construct_isOk (env : Env) (cfgPort raw : JSValue) (m : Bool) (ctr : Nat)
    (h : validateInteraction raw m = .ok ()) :
    ∃ it ctr', Interaction.construct env cfgPort raw m ctr = .ok (it, ctr') := by
  unfold Interaction.construct
  rw [h]
  exact ⟨_, _, rfl⟩

/-- When validation fails, construction fails with the very same error. -/
theorem construct_err (env : Env) (cfgPort raw : JSValue) (m : Bool) (ctr : Nat)
    (e : JsError) (h : validateInteraction raw m = .error e) :
    Interaction.construct env cfgPort raw m ctr = .error e := by
  unfold Interaction.construct
  rw [h]

/-- Running the mock batch loop over a prefix of valid interactions: the
prefix registers one server entry per element, in order, appending the ids
to the accumulator, and the loop continues on the remainder. -/
theorem addMockLoop_append (env : Env) (pre : List JSValue) :
    ∀ (s : MockState) (acc : List JSValue),
      (∀ r ∈ pre, validateInteraction r true = .ok ()) →
      ∀ rest, ∃ entries ctr',
        Mock.addMockLoop env (pre ++ rest) s acc
          = Mock.addMockLoop env rest
              { s with serverAddLog := s.serverAddLog ++ entries, idCtr := ctr' }
              (acc ++ entries.map Prod.fst) ∧
        entries.length = pre.length := by
  induction pre with
  | nil =>
      intro s acc _ rest
      refine ⟨[], s.idCtr, ?_, rfl⟩
      have hst : ({ s with serverAddLog := s.serverAddLog ++ [], idCtr := s.idCtr } : MockState) = s := by
        cases s; simp
      rw [hst]
      simp
  | cons r rs ih =>
      intro s acc h rest
      have hr : validateInteraction r true = .ok () := h r (by simp)
      obtain ⟨it, ctr1, hc⟩ := construct_isOk env s.configMockPort r true s.idCtr hr
      have hstep : Mock.addMockLoop env ((r :: rs) ++ rest) s acc
          = Mock.addMockLoop env (rs ++ rest)
              { s with serverAddLog := s.serverAddLog ++ [(it.id, it)], idCtr := ctr1 }
              (acc ++ [it.id]) := by
        simp [Mock.addMockLoop, hc]
      obtain ⟨entries, ctr', hrec, hlen⟩ :=
        ih { s with serverAddLog := s.serverAddLog ++ [(it.id, it)], idCtr := ctr1 }
          (acc ++ [it.id]) (fun x hx => h x (by simp [hx])) rest
      refine ⟨(it.id, it) :: entries, ctr', ?_, by simp [hlen]⟩
      rw [hstep, hrec]
      congr 1
      · cases s; simp
      · simp

/-- Running the pact batch loop over a prefix of valid interactions: same
shape as the mock loop — one server entry per element, ids in order — and
nothing else in the state changes. -/
theorem addPactLoop_append (env : Env) (pre : List JSValue) :
    ∀ (s : MockState) (acc : List JSValue),
      (∀ r ∈ pre, validateInteraction r false = .ok ()) →
      ∀ rest, ∃ entries ctr',
        Mock.addPactLoop env (pre ++ rest) s acc
          = Mock.addPactLoop env rest
              { s with serverAddLog := s.serverAddLog ++ entries, idCtr := ctr' }
              (acc ++ entries.map Prod.fst) ∧
        entries.length = pre.length := by
  induction pre with
  | nil =>
      intro s acc _ rest
      refine ⟨[], s.idCtr, ?_, rfl⟩
      have hst : ({ s with serverAddLog := s.serverAddLog ++ [], idCtr := s.idCtr } : MockState) = s := by
        cases s; simp
      rw [hst]
      simp
  | cons r rs ih =>
      intro s acc h rest
      have hr : validateInteraction r false = .ok () := h r (by simp)
      obtain ⟨it, ctr1, hc⟩ := construct_isOk env s.configMockPort r false s.idCtr hr
      have hstep : Mock.addPactLoop env ((r :: rs) ++ rest) s acc
          = Mock.addPactLoop env (rs ++ rest)
              { s with serverAddLog := s.serverAddLog ++ [(it.id, it)], idCtr := ctr1 }
              (acc ++ [it.id]) := by
        simp [Mock.addPactLoop, hc]
      obtain ⟨entries, ctr', hrec, hlen⟩ :=
        ih { s with serverAddLog := s.serverAddLog ++ [(it.id, it)], idCtr := ctr1 }
          (acc ++ [it.id]) (fun x hx => h x (by simp [hx])) rest
      refine ⟨(it.id, it) :: entries, ctr', ?_, by simp [hlen]⟩
      rw [hstep, hrec]
      congr 1
      · cases s; simp
      · simp

/-- C3. `addDefaultMockInteractions` on a batch whose first `k-1` elements
are valid and whose `k`-th is invalid registers the first `k-1` with the
injected server, raises the `k`-th element's error, and rolls nothing back
(the server log keeps the prior registrations); on an all-valid batch it
returns the ids in input order; on a non-array argument it fails with a
`PactumConfigurationError` before touching any element. -/
theorem claim_C3 (env : Env) (s : MockState) (pre post : List JSValue) (bad : JSValue)
    (err : JsError)
    (h1 : ∀ r ∈ pre, validateInteraction r true = .ok ())
    (h2 : validateInteraction bad true = .error err) :
    (∃ entries ctr',
      Mock.addDefaultMockInteractions env (.arr (pre ++ bad :: post)) s
        = ({ s with serverAddLog := s.serverAddLog ++ entries, idCtr := ctr' }, .error err) ∧
      entries.length = pre.length) ∧
    (∀ list, (∀ r ∈ list, validateInteraction r true = .ok ()) →
      ∃ entries ctr',
        Mock.addDefaultMockInteractions env (.arr list) s
          = ({ s with serverAddLog := s.serverAddLog ++ entries, idCtr := ctr' },
             .ok (entries.map Prod.fst)) ∧
        entries.length = list.length) ∧
    (∀ other, (∀ l, other ≠ .arr l) →
      Mock.addDefaultMockInteractions env other s
        = (s, .error (.configurationError ("Invalid mock interactions array passed - " ++ jsToString other)))) := by
  refine ⟨?_, ?_, ?_⟩
  · obtain ⟨entries, ctr', hmid, hlen⟩ := addMockLoop_append env pre s [] h1 (bad :: post)
    refine ⟨entries, ctr', ?_, hlen⟩
    have hbadstep : Mock.addMockLoop env (bad :: post)
        { s with serverAddLog := s.serverAddLog ++ entries, idCtr := ctr' }
        ([] ++ entries.map Prod.fst)
        = ({ s with serverAddLog := s.serverAddLog ++ entries, idCtr := ctr' }, .error err) := by
      have hce := construct_err env
        ({ s with serverAddLog := s.serverAddLog ++ entries, idCtr := ctr' } : MockState).configMockPort
        bad true ctr' err h2
      simp [Mock.addMockLoop, hce]
    calc Mock.addDefaultMockInteractions env (.arr (pre ++ bad :: post)) s
        = Mock.addMockLoop env (pre ++ bad :: post) s [] := rfl
      _ = _ := by rw [hmid, hbadstep]
  · intro list hall
    obtain ⟨entries, ctr', hmid, hlen⟩ := addMockLoop_append env list s [] hall []
    rw [List.append_nil] at hmid
    refine ⟨entries, ctr', ?_, hlen⟩
    calc Mock.addDefaultMockInteractions env (.arr list) s
        = Mock.addMockLoop env list s [] := rfl
      _ = ({ s with serverAddLog := s.serverAddLog ++ entries, idCtr := ctr' },
            .ok (entries.map Prod.fst)) := by
          rw [hmid]; simp [Mock.addMockLoop]
  · intro other hother
    cases other with
    | arr l => exact absurd rfl (hother l)
    | undefined => rfl
    | null => rfl
    | bool b => rfl
    | num n => rfl
    | str t => rfl
    | obj fs => rfl
    | func t => rfl

/-- C3 witness: two valid mock interactions followed by an invalid element
leave exactly two server registrations behind and raise the third element's
error; a string argument fails with the non-array configuration error; a
fully valid pair returns two ids in order. -/
theorem claim_C3_witness :
    (∃ entries ctr',
      Mock.addDefaultMockInteractions env0 (.arr [rawMock1, rawMock2, .num 7]) s0
        = ({ s0 with serverAddLog := s0.serverAddLog ++ entries, idCtr := ctr' },
           .error (.interactionError "Invalid interaction provided")) ∧
      entries.length = 2) ∧
    (∃ entries ctr',
      Mock.addDefaultMockInteractions env0 (.arr [rawMock1, rawMock2]) s0
        = ({ s0 with serverAddLog := s0.serverAddLog ++ entries, idCtr := ctr' },
           .ok (entries.map Prod.fst)) ∧
      entries.length = 2) ∧
    Mock.addDefaultMockInteractions env0 (.str "oops") s0
      = (s0, .error (.configurationError "Invalid mock interactions array passed - oops")) := by
  have hvalid : ∀ r ∈ [rawMock1, rawMock2], validateInteraction r true = .ok () := by
    intro r hr
    rcases List.mem_cons.mp hr with rfl | hr2
    · rfl
    · rcases List.mem_cons.mp hr2 with rfl | h3
      · rfl
      · cases h3
  have h := claim_C3 env0 s0 [rawMock1, rawMock2] [] (.num 7)
    (.interactionError "Invalid interaction provided") hvalid rfl
  exact ⟨h.1, h.2.1 [rawMock1, rawMock2] hvalid,
    h.2.2 (.str "oops") (fun l hl => JSValue.noConfusion hl)⟩

/-- C1 (amended). `addDefaultPactInteractions` on an all-valid batch
constructs each element in contract mode, registers it with the injected
server, and returns the ids in input order; a non-array argument fails with
a `PactumConfigurationError`. Unlike the single-interaction
`addDefaultPactInteraction` — which also enters the result into the internal
id-table and forwards it to the external store — the batch operation leaves
the id-table and the store untouched (the record-update equality pins
`interactionsMap` and `storeLog` to their prior values). -/
theorem claim_C1 (env : Env) (s : MockState) :
    (∀ list, (∀ r ∈ list, validateInteraction r false = .ok ()) →
      ∃ entries ctr',
        Mock.addDefaultPactInteractions env (.arr list) s
          = ({ s with serverAddLog := s.serverAddLog ++ entries, idCtr := ctr' },
             .ok (entries.map Prod.fst)) ∧
        entries.length = list.length) ∧
    (∀ other, (∀ l, other ≠ .arr l) →
      Mock.addDefaultPactInteractions env other s
        = (s, .error (.configurationError ("Invalid pact interactions array passed - " ++ jsToString other)))) ∧
    (∀ raw, validateInteraction raw false = .ok () →
      ∃ it ctr',
        Mock.addDefaultPactInteraction env raw s
          = ({ s with interactionsMap := mapSet s.interactionsMap it.id it,
                      serverAddLog := s.serverAddLog ++ [(it.id, it)],
                      storeLog := s.storeLog ++ [it], idCtr := ctr' }, .ok it.id)) := by
  refine ⟨?_, ?_, ?_⟩
  · intro list hall
    obtain ⟨entries, ctr', hmid, hlen⟩ := addPactLoop_append env list s [] hall []
    rw [List.append_nil] at hmid
    refine ⟨entries, ctr', ?_, hlen⟩
    calc Mock.addDefaultPactInteractions env (.arr list) s
        = Mock.addPactLoop env list s [] := rfl
      _ = ({ s with serverAddLog := s.serverAddLog ++ entries, idCtr := ctr' },
            .ok (entries.map Prod.fst)) := by
          rw [hmid]; simp [Mock.addPactLoop]
  · intro other hother
    cases other with
    | arr l => exact absurd rfl (hother l)
    | undefined => rfl
    | null => rfl
    | bool b => rfl
    | num n => rfl
    | str t => rfl
    | obj fs => rfl
    | func t => rfl
  · intro raw hok
    obtain ⟨it, ctr', hc⟩ := construct_isOk env s.configMockPort raw false s.idCtr hok
    exact ⟨it, ctr', by simp [Mock.addDefaultPactInteraction, hc]⟩

/-- C1 witness: a one-element valid pact batch registers one server entry
and returns its id; a numeric argument fails with the non-array error; the
single-interaction operation on the same input does reach id-table, server
and store. -/
theorem claim_C1_witness :
    (∃ entries ctr',
      Mock.addDefaultPactInteractions env0 (.arr [rawPact]) s0
        = ({ s0 with serverAddLog := s0.serverAddLog ++ entries, idCtr := ctr' },
           .ok (entries.map Prod.fst)) ∧
      entries.length = 1) ∧
    Mock.addDefaultPactInteractions env0 (.num 3) s0
      = (s0, .error (.configurationError "Invalid pact interactions array passed - 3")) ∧
    (∃ it ctr',
      Mock.addDefaultPactInteraction env0 rawPact s0
        = ({ s0 with interactionsMap := mapSet s0.interactionsMap it.id it,
                     serverAddLog := s0.serverAddLog ++ [(it.id, it)],
                     storeLog := s0.storeLog ++ [it], idCtr := ctr' }, .ok it.id)) := by
  have hvalid : ∀ r ∈ [rawPact], validateInteraction r false = .ok () := by
    intro r hr
    rcases List.mem_cons.mp hr with rfl | h2
    · rfl
    · cases h2
  have h := claim_C1 env0 s0
  exact ⟨h.1 [rawPact] hvalid, h.2.1 (.num 3) (fun l hl => JSValue.noConfusion hl),
    h.2.2 rawPact rfl⟩

/-- C1 counterexample: on the concrete valid pact interaction `rawPact`, the
batch operation succeeds and registers with the server, yet leaves the
external store and the internal id-table empty — whereas the
single-interaction operation on the same input populates both. This refutes
the claim that the batch applies the full single-interaction pact operation
(id-table entry and store forwarding included) to each element. -/
theorem claim_C1_counterexample :
    (Mock.addDefaultPactInteractions env0 (.arr [rawPact]) s0).2
      = .ok [.str (getRandomId 0)] ∧
    (Mock.addDefaultPactInteractions env0 (.arr [rawPact]) s0).1.serverAddLog.length = 1 ∧
    (Mock.addDefaultPactInteractions env0 (.arr [rawPact]) s0).1.storeLog.length = 0 ∧
    (Mock.addDefaultPactInteractions env0 (.arr [rawPact]) s0).1.interactionsMap.length = 0 ∧
    (Mock.addDefaultPactInteraction env0 rawPact s0).1.storeLog.length = 1 ∧
    (Mock.addDefaultPactInteraction env0 rawPact s0).1.interactionsMap.length = 1 :=
  ⟨rfl, rfl, rfl, rfl, rfl, rfl⟩

end Pactum

namespace Pactum.RefModel

/-- Cell lookup on a heap with one more cell at the front. -/
theorem lookupCell_cons (n : Nat) (fs : List (String × RVal))
    (cs : List (Nat × List (String × RVal))) (m m' : Nat) (a : Nat) :
    RHeap.lookupCell ⟨(n, fs) :: cs, m⟩ a
      = if n = a then some fs else RHeap.lookupCell ⟨cs, m'⟩ a := by
  by_cases h : n = a
  · have hb : (n == a) = true := by simp [h]
    simp [RHeap.lookupCell, List.find?, hb, h]
  · have hb : (n == a) = false := by simp [h]
    simp [RHeap.lookupCell, List.find?, hb, h]

/-- In a well-formed heap, every address that resolves to a cell lies below
the allocation frontier. -/
theorem lookupCell_lt_next (h : RHeap) (hwf : h.WF) (a : Nat)
    (fs : List (String × RVal)) (hl : h.lookupCell a = some fs) : a < h.next := by
  unfold RHeap.lookupCell at hl
  cases hfind : h.cells.find? (fun c => c.1 == a) with
  | none => rw [hfind] at hl; cases hl
  | some c =>
      have hmem := List.mem_of_find?_eq_some hfind
      have hpred := List.find?_some hfind
      have : c.1 = a := by simpa using hpred
      exact this ▸ hwf c hmem

mutual

/-- Allocating a tree: the frontier only grows, well-formedness is kept,
pre-existing cells are untouched, a returned reference is fresh (in the
allocated region), and any heap agreeing with the result on that region
deep-reads the returned value back to the allocated tree with fuel
`treeFuel`. -/
theorem allocTree_spec (t : Tree) (h : RHeap) (hwf : h.WF) :
    h.next ≤ (allocTree h t).1.next ∧
    (allocTree h t).1.WF ∧
    (∀ a, a < h.next → (allocTree h t).1.lookupCell a = h.lookupCell a) ∧
    (∀ a, (allocTree h t).2 = .ref a → h.next ≤ a ∧ a < (allocTree h t).1.next) ∧
    (∀ g : RHeap,
      (∀ addr, h.next ≤ addr → addr < (allocTree h t).1.next →
        g.lookupCell addr = (allocTree h t).1.lookupCell addr) →
      ∀ fuel, treeFuel t ≤ fuel → deepRead g fuel (allocTree h t).2 = some t) := by
  cases t with
  | null =>
      refine ⟨le_refl _, hwf, fun a _ => rfl, fun a ha => RVal.noConfusion ha,
        fun g _ fuel _ => by simp [allocTree, deepRead]⟩
  | bool b =>
      refine ⟨le_refl _, hwf, fun a _ => rfl, fun a ha => RVal.noConfusion ha,
        fun g _ fuel _ => by simp [allocTree, deepRead]⟩
  | num n =>
      refine ⟨le_refl _, hwf, fun a _ => rfl, fun a ha => RVal.noConfusion ha,
        fun g _ fuel _ => by simp [allocTree, deepRead]⟩
  | str s =>
      refine ⟨le_refl _, hwf, fun a _ => rfl, fun a ha => RVal.noConfusion ha,
        fun g _ fuel _ => by simp [allocTree, deepRead]⟩
  | obj fs =>
      obtain ⟨hmono, hwf1, hold, hread⟩ := allocFields_spec fs h hwf
      have hdef : allocTree h (.obj fs)
          = (⟨((allocFields h fs).1.next, (allocFields h fs).2) :: (allocFields h fs).1.cells,
              (allocFields h fs).1.next + 1⟩, .ref (allocFields h fs).1.next) := by
        simp [allocTree]
      rw [hdef]
      dsimp only
      refine ⟨by omega, ?_, ?_, ?_, ?_⟩
      · intro c hc
        rcases List.mem_cons.mp hc with rfl | hc2
        · simp
        · exact Nat.lt_succ_of_lt (hwf1 c hc2)
      · intro a ha
        rw [lookupCell_cons _ _ _ _ (allocFields h fs).1.next,
          if_neg (by have := hmono; omega)]
        exact hold a ha
      · intro a ha
        cases ha
        exact ⟨hmono, by omega⟩
      · intro g hg fuel hfuel
        have hfuel1 : 1 ≤ fuel := le_trans (by simp [treeFuel]) hfuel
        obtain ⟨f, rfl⟩ : ∃ f, fuel = f + 1 :=
          ⟨fuel - 1, by omega⟩
        have hcell : g.lookupCell (allocFields h fs).1.next
            = some (allocFields h fs).2 := by
          rw [hg (allocFields h fs).1.next hmono (by omega),
            lookupCell_cons _ _ _ _ (allocFields h fs).1.next, if_pos rfl]
        have hfs : readFields g f (allocFields h fs).2 = some fs := by
          refine hread g ?_ f ?_
          · intro addr h1 h2
            rw [hg addr h1 (by omega),
              lookupCell_cons _ _ _ _ (allocFields h fs).1.next, if_neg (by omega)]
          · have : treeFuel (.obj fs) = fieldsFuel fs + 1 := rfl
            omega
        simp [deepRead, hcell, hfs]

/-- Allocating a field list: same frame properties, and any heap agreeing on
the allocated region reads the fields back with fuel `fieldsFuel`. -/
theorem allocFields_spec (fs : TFields) (h : RHeap) (hwf : h.WF) :
    h.next ≤ (allocFields h fs).1.next ∧
    (allocFields h fs).1.WF ∧
    (∀ a, a < h.next → (allocFields h fs).1.lookupCell a = h.lookupCell a) ∧
    (∀ g : RHeap,
      (∀ addr, h.next ≤ addr → addr < (allocFields h fs).1.next →
        g.lookupCell addr = (allocFields h fs).1.lookupCell addr) →
      ∀ fuel, fieldsFuel fs ≤ fuel → readFields g fuel (allocFields h fs).2 = some fs) := by
  cases fs with
  | nil =>
      exact ⟨le_refl _, hwf, fun a _ => rfl, fun g _ fuel _ => by simp [allocFields, readFields]⟩
  | cons k v rest =>
      obtain ⟨hm1, hwf1, hold1, hrange1, hread1⟩ := allocTree_spec v h hwf
      obtain ⟨hm2, hwf2, hold2, hread2⟩ := allocFields_spec rest (allocTree h v).1 hwf1
      have hdef : allocFields h (.cons k v rest)
          = ((allocFields (allocTree h v).1 rest).1,
             (k, (allocTree h v).2) :: (allocFields (allocTree h v).1 rest).2) := by
        simp [allocFields]
      rw [hdef]
      dsimp only
      refine ⟨le_trans hm1 hm2, hwf2, ?_, ?_⟩
      · intro a ha
        rw [hold2 a (lt_of_lt_of_le ha hm1), hold1 a ha]
      · intro g hg fuel hfuel
        have hreadv : deepRead g fuel (allocTree h v).2 = some v := by
          refine hread1 g ?_ fuel ?_
          · intro addr h1 h2
            rw [hg addr h1 (lt_of_lt_of_le h2 hm2), hold2 addr h2]
          · have : fieldsFuel (.cons k v rest) = max (treeFuel v) (fieldsFuel rest) := rfl
            omega
        have hreadrest : readFields g fuel (allocFields (allocTree h v).1 rest).2
            = some rest := by
          refine hread2 g ?_ fuel ?_
          · intro addr h1 h2
            exact hg addr (le_trans hm1 h1) h2
          · have : fieldsFuel (.cons k v rest) = max (treeFuel v) (fieldsFuel rest) := rfl
            omega
        simp [readFields, hreadv, hreadrest]

end

/-- C4. Constructing an `InteractionResponse` whose `body` is a reference to
a structured (JSON-representable) value `B`: the constructor succeeds,
`body` is the value-matcher transform of `B`, and `rawBody` is a reference
distinct from the caller's — it deep-reads to exactly `B` in the resulting
heap, and still does so in every heap that coincides with the result on the
freshly allocated region, i.e. after arbitrary mutation of the caller's
pre-existing cells. -/
theorem claim_C4 (transform : Option Tree → Tree) (h : RHeap) (fuel : Nat)
    (resp st hd : RVal) (a : Nat) (B : Tree)
    (hwf : h.WF)
    (hst : getFieldR h resp "status" = some st)
    (hhd : getFieldR h resp "headers" = some hd)
    (hb : getFieldR h resp "body" = some (.ref a))
    (hB : deepRead h fuel (.ref a) = some B) :
    ∃ hp c,
      mkIResponse transform h fuel resp
        = some (hp, { status := st, headers := hd, rawBody := .ref c,
                      body := transform (some B) }) ∧
      c ≠ a ∧
      deepRead hp (treeFuel B) (.ref c) = some B ∧
      (∀ g : RHeap, (∀ addr, h.next ≤ addr → g.lookupCell addr = hp.lookupCell addr) →
        deepRead g (treeFuel B) (.ref c) = some B) := by
  obtain ⟨f, rfl⟩ : ∃ f, fuel = f + 1 := by
    cases fuel with
    | zero => simp [deepRead] at hB
    | succ f => exact ⟨f, rfl⟩
  have hobj : ∃ ts, B = .obj ts := by
    rw [show deepRead h (f + 1) (.ref a)
        = (match h.lookupCell a with
           | none => none
           | some fs =>
             match readFields h f fs with
             | none => none
             | some ts => some (.obj ts)) from by simp [deepRead]] at hB
    cases hcell : h.lookupCell a with
    | none => rw [hcell] at hB; cases hB
    | some fs0 =>
        rw [hcell] at hB
        dsimp only at hB
        cases hfld : readFields h f fs0 with
        | none => rw [hfld] at hB; cases hB
        | some ts => rw [hfld] at hB; exact ⟨ts, by cases hB; rfl⟩
  have ha : a < h.next := by
    cases hcell : h.lookupCell a with
    | none =>
        exfalso
        rw [show deepRead h (f + 1) (.ref a)
            = (match h.lookupCell a with
               | none => none
               | some fs =>
                 match readFields h f fs with
                 | none => none
                 | some ts => some (.obj ts)) from by simp [deepRead], hcell] at hB
        cases hB
    | some fs0 => exact lookupCell_lt_next h hwf a fs0 hcell
  obtain ⟨hmono, hwfp, hold, hrange, hread⟩ := allocTree_spec B h hwf
  obtain ⟨ts, rfl⟩ := hobj
  have hrefc : (allocTree h (.obj ts)).2 = .ref (allocFields h ts).1.next := by
    simp [allocTree]
  have hmk : mkIResponse transform h (f + 1) resp
      = some ((allocTree h (.obj ts)).1,
          { status := st, headers := hd, rawBody := (allocTree h (.obj ts)).2,
            body := transform (some (.obj ts)) }) := by
    unfold mkIResponse
    rw [hst, hhd, hb]
    dsimp only
    rw [if_pos ⟨rfl, rfl⟩, hB]
  obtain ⟨hc1, hc2⟩ := hrange (allocFields h ts).1.next hrefc
  refine ⟨(allocTree h (.obj ts)).1, (allocFields h ts).1.next, ?_, by omega, ?_, ?_⟩
  · rw [hmk, hrefc]
  · have := hread (allocTree h (.obj ts)).1 (fun addr _ _ => rfl) (treeFuel (.obj ts))
      (le_refl _)
    rw [hrefc] at this
    exact this
  · intro g hg
    have := hread g (fun addr h1 h2 => hg addr h1) (treeFuel (.obj ts)) (le_refl _)
    rw [hrefc] at this
    exact this

/-- C4 witness: on the concrete heap `h4` (the caller's body object at cell
0, the response at cell 1) the constructor yields status 200, a raw body
referencing a cell other than 0 that deep-reads back to the original deep
value, and the transform of that value as `body`. -/
theorem claim_C4_witness :
    ∃ hp c,
      mkIResponse (fun _ => Tree.null) h4 2 (.ref 1)
        = some (hp, { status := .num 200, headers := .undefined, rawBody := .ref c,
                      body := Tree.null }) ∧
      c ≠ 0 ∧
      deepRead hp (treeFuel body4) (.ref c) = some body4 := by
  obtain ⟨hp, c, hmk, hne, hrd, hmut⟩ := claim_C4 (fun _ => Tree.null) h4 2 (.ref 1)
    (.num 200) .undefined 0 body4 (by simp [RHeap.WF, h4]) rfl rfl rfl
    (by simp [deepRead, readFields, RHeap.lookupCell, List.find?, h4, body4])
  exact ⟨hp, c, hmk, hne, hrd⟩

end Pactum.RefModel
